import Mathlib

set_option maxRecDepth 1024

/-!
Verification of the AirIQ synthetic sensor core.

This file shallowly embeds the seeded sensor scatterer of
`src/frontend/src/components/maps/LandingSensorMap.jsx` (the module after the
document separator: `createSeededRandom`, `round`, `clamp`, `pointInBounds`,
`isPointOnLand`, `randomInRange`, `createSensorPayload`, `generateLandSensors`,
the `REGIONS` and `FALLBACK_BOUNDS` constants), the viewport helpers of the
first module of the same file (`clamp`, `buildFocusViewport`), and the
live-tick simulator of `src/frontend/src/mock/sensors.js` (`getStatusFromPm25`,
`tickSensors`, in both versions that file carries).

Modelling conventions:
* JavaScript numbers are modelled as exact rationals (`ℚ`); integer-valued
  fields produced by `Math.round` are modelled as `ℤ`.
* `Math.round x` is `⌊x + 1/2⌋` (JS rounds half toward positive infinity).
* The mutable closure state of `createSeededRandom` becomes explicit state
  passing of the 32-bit LCG state (a `ℕ` kept below `2^32` by `% 2^32`).
* `new Date().toISOString()` is modelled by an explicit `now : String`
  argument: the clock reading is an input of the embedding.
* A GeoJSON feature is modelled by its name, the bounding box that
  `geometryBounds` computes from its geometry, and its containment semantics
  `geoContains(feature, [lng, lat])` (d3-geo is an external library, so the
  geometry is abstracted to the Boolean containment test the code consumes).
* `Math.random()` in the unseeded tick simulator is modelled by a stream
  `ℕ → ℚ` giving the value of each successive call.
* The source's `while` loops become structural recursion on the remaining
  attempt budget (the loops are explicitly bounded by attempt counters),
  returning the number of iterations actually executed alongside the result.
-/

namespace AirIQ

/-- JS `Math.round`: round half toward positive infinity. -/
def jround (q : ℚ) : ℤ := Int.floor (q + 1/2)

/-- Source helper `round(value, decimals)`: `Math.round(value * 10^d) / 10^d`. -/
def roundTo (decimals : ℕ) (q : ℚ) : ℚ := (jround (q * 10 ^ decimals) : ℚ) / 10 ^ decimals

/-- Source helper `clamp(value, min, max) = Math.min(max, Math.max(min, value))`. -/
def clampQ (value lo hi : ℚ) : ℚ := min hi (max lo value)

/-! ## Seeded PRNG (`createSeededRandom`) -/

/-- Modulus `2^32` of the LCG. -/
def UINT32 : ℕ := 4294967296

/-- One update of the LCG closure state: `state = (state * 1664525 + 1013904223) >>> 0`. -/
def nextState (s : ℕ) : ℕ := (s * 1664525 + 1013904223) % UINT32

/-- Initial closure state of `createSeededRandom(seed)`, i.e. `seed >>> 0`. -/
def seedInit (seed : ℕ) : ℕ := seed % UINT32

/-- One call of the function returned by `createSeededRandom`: update the state,
then return `state / 4294967296` together with the new state. -/
def randNext (s : ℕ) : ℚ × ℕ :=
  ((nextState s : ℚ) / (UINT32 : ℚ), nextState s)

/-- State of the LCG after `n` calls, starting from `seed >>> 0`. -/
def nthState (seed : ℕ) : ℕ → ℕ
  | 0 => seedInit seed
  | n + 1 => nextState (nthState seed n)

/-- Value produced by the `n`-th call (0-indexed) of the PRNG seeded with `seed`. -/
def nthOutput (seed : ℕ) (n : ℕ) : ℚ := (randNext (nthState seed n)).1

/-! ## Sensor records -/

/-- A generated sensor reading, with the exact field set built by
`createSensorPayload` (the `tickSensors` records carry a subset of these
fields; the extra `intensity` field is simply carried through by the
object-spread update of `tickSensors`). -/
structure Sensor where
  id : String
  name : String
  lat : ℚ
  lng : ℚ
  status : String
  pm25 : ℤ
  temperature : ℚ
  humidity : ℤ
  updatedAt : String
  intensity : ℚ
deriving DecidableEq

/-- Placeholder record used only to give `List.getD` a default. -/
def dummySensor : Sensor := ⟨"", "", 0, 0, "", 0, 0, 0, "", 0⟩

/-! ## Land test -/

/-- Rectangle `{minLat, maxLat, minLng, maxLng}` (region bounds, feature
bounding boxes, fallback bounds and viewports all share this shape). -/
structure Bounds where
  minLat : ℚ
  maxLat : ℚ
  minLng : ℚ
  maxLng : ℚ
deriving DecidableEq

/-- A GeoJSON country feature as consumed by the generator: `properties.name`,
the bounding box `geometryBounds(feature.geometry)`, and the external d3-geo
containment test `geoContains(feature, [lng, lat])` abstracted to a
Boolean-valued function of the point. -/
structure Feature where
  name : String
  bounds : Bounds
  contains : ℚ → ℚ → Bool

/-- Bounding-box pre-check `pointInBounds(bounds, lng, lat)`. -/
def pointInBounds (b : Bounds) (lng lat : ℚ) : Bool :=
  decide (b.minLng ≤ lng) && decide (lng ≤ b.maxLng) &&
    decide (b.minLat ≤ lat) && decide (lat ≤ b.maxLat)

/-- Land membership `isPointOnLand(featureIndex, lng, lat)`: scan the feature
index, skip any feature whose bounding box excludes the point, and report
whether some remaining feature contains it. -/
def isPointOnLand (featureIndex : List Feature) (lng lat : ℚ) : Bool :=
  featureIndex.any fun item => pointInBounds item.bounds lng lat && item.contains lng lat

/-! ## Regions and payloads -/

/-- One entry of the `REGIONS` table. -/
structure Region where
  key : String
  bounds : Bounds
  count : ℕ
deriving DecidableEq

/-- The sixteen-region `REGIONS` constant. -/
def REGIONS : List Region :=
  [ ⟨"na-west", ⟨31, 51, -126, -109⟩, 22⟩,
    ⟨"na-central", ⟨31, 50, -109, -88⟩, 20⟩,
    ⟨"na-east", ⟨30, 50, -88, -66⟩, 24⟩,
    ⟨"sa-north", ⟨-6, 13, -81, -58⟩, 12⟩,
    ⟨"sa-south", ⟨-43, -15, -74, -45⟩, 14⟩,
    ⟨"eu-west", ⟨43, 59, -11, 11⟩, 22⟩,
    ⟨"eu-central", ⟨45, 57, 7, 28⟩, 18⟩,
    ⟨"eu-north", ⟨55, 69, 8, 32⟩, 12⟩,
    ⟨"africa-north", ⟨20, 36, -12, 35⟩, 10⟩,
    ⟨"africa-sub", ⟨-8, 12, -17, 38⟩, 12⟩,
    ⟨"africa-south", ⟨-36, -16, 14, 35⟩, 10⟩,
    ⟨"middle-east", ⟨15, 37, 35, 60⟩, 12⟩,
    ⟨"south-asia", ⟨8, 30, 67, 90⟩, 18⟩,
    ⟨"east-asia", ⟨24, 46, 100, 143⟩, 20⟩,
    ⟨"se-asia", ⟨-9, 20, 95, 126⟩, 16⟩,
    ⟨"oceania", ⟨-46, -11, 112, 178⟩, 14⟩ ]

/-- The `FALLBACK_BOUNDS` constant. -/
def FALLBACK_BOUNDS : Bounds := ⟨-52, 78, -170, 175⟩

/-- ASCII uppercase of a string, modelling `regionKey.toUpperCase()` on the
ASCII region keys (defined by structural recursion over the character list so
that concrete runs reduce). -/
def strToUpper (s : String) : String := ⟨s.data.map Char.toUpper⟩

/-- Source helper `randomInRange(random, min, max) = min + random() * (max - min)`,
with the closure state made explicit. -/
def randomInRange (s : ℕ) (lo hi : ℚ) : ℚ × ℕ :=
  (lo + (randNext s).1 * (hi - lo), (randNext s).2)

/-- Payload builder `createSensorPayload(regionKey, sequence, lat, lng, random,
now)`: one quality roll, then the status-dependent pm25 draw, then temperature,
humidity and intensity draws, in the source's evaluation order. -/
def createSensorPayload (regionKey : String) (sequence : ℕ) (lat lng : ℚ)
    (s : ℕ) (now : String) : Sensor × ℕ :=
  let qualityRoll := (randNext s).1
  let s1 := (randNext s).2
  let draw := (randNext s1).1
  let s2 := (randNext s1).2
  let pm25 :=
    if qualityRoll < 63/100 then jround (8 + draw * 7)
    else if qualityRoll < 88/100 then jround (18 + draw * 10)
    else jround (32 + draw * 16)
  let s3 := (randNext s2).2
  let s4 := (randNext s3).2
  let s5 := (randNext s4).2
  (⟨regionKey ++ "-" ++ toString sequence,
    "Sensor " ++ strToUpper regionKey ++ "-" ++ toString sequence,
    roundTo 4 lat, roundTo 4 lng,
    (if qualityRoll < 63/100 then "good"
     else if qualityRoll < 88/100 then "moderate" else "poor"),
    pm25,
    roundTo 1 (16 + (randNext s2).1 * 16),
    jround (30 + (randNext s3).1 * 42),
    now,
    roundTo 2 (3/4 + (randNext s4).1 * (9/10))⟩, s5)

/-! ## Generation loops -/

/-- Per-region `while (count < region.count && attempts < maxAttempts)` loop,
as structural recursion on the remaining attempt budget `fuel` (so
`attempts < maxAttempts` becomes `0 < fuel`). Returns the sensor list, the
final PRNG state, and the number of iterations (attempts) executed. -/
def regionLoopAux (fi : List Feature) (region : Region) (now : String) :
    ℕ → ℕ → ℕ → List Sensor → List Sensor × ℕ × ℕ
  | 0, _, s, acc => (acc, s, 0)
  | fuel + 1, count, s, acc =>
    if count < region.count then
      let p1 := randomInRange s region.bounds.minLat region.bounds.maxLat
      let p2 := randomInRange p1.2 region.bounds.minLng region.bounds.maxLng
      if isPointOnLand fi p2.1 p1.1 then
        let payload := createSensorPayload region.key (count + 1) p1.1 p2.1 p2.2 now
        let r := regionLoopAux fi region now fuel (count + 1) payload.2 (acc ++ [payload.1])
        (r.1, r.2.1, r.2.2 + 1)
      else
        let r := regionLoopAux fi region now fuel count p2.2 acc
        (r.1, r.2.1, r.2.2 + 1)
    else (acc, s, 0)

/-- The `REGIONS.forEach` pass: every region runs its rejection loop with a
fresh `count = 0` and an attempt budget of `region.count * 900`, with the
shared sensor array and the PRNG state threaded through. -/
def regionsPart (fi : List Feature) (now : String) :
    List Region → List Sensor × ℕ → List Sensor × ℕ
  | [], p => p
  | region :: rest, p =>
    let r := regionLoopAux fi region now (region.count * 900) 0 p.2 p.1
    regionsPart fi now rest (r.1, r.2.1)

/-- Target total `targetCount = REGIONS.reduce((sum, region) => sum + region.count, 0)`. -/
def targetCount (regions : List Region) : ℕ :=
  regions.foldl (fun sum r => sum + r.count) 0

/-- Fallback `while (sensors.length < targetCount && fallbackIndex <
targetCount * 1600)` loop, as structural recursion on the remaining budget.
Accepted points are clamped to `lat ∈ [-58, 82]`, `lng ∈ [-176, 176]` and
recorded under the `"global"` region key with `sequence = sensors.length + 1`.
Returns the sensor list, the final PRNG state, and the number of iterations
executed. -/
def fallbackLoopAux (fi : List Feature) (now : String) (tc : ℕ) :
    ℕ → ℕ → List Sensor → List Sensor × ℕ × ℕ
  | 0, s, acc => (acc, s, 0)
  | fuel + 1, s, acc =>
    if acc.length < tc then
      let p1 := randomInRange s FALLBACK_BOUNDS.minLat FALLBACK_BOUNDS.maxLat
      let p2 := randomInRange p1.2 FALLBACK_BOUNDS.minLng FALLBACK_BOUNDS.maxLng
      if isPointOnLand fi p2.1 p1.1 then
        let payload := createSensorPayload "global" (acc.length + 1)
          (clampQ p1.1 (-58) 82) (clampQ p2.1 (-176) 176) p2.2 now
        let r := fallbackLoopAux fi now tc fuel payload.2 (acc ++ [payload.1])
        (r.1, r.2.1, r.2.2 + 1)
      else
        let r := fallbackLoopAux fi now tc fuel p2.2 acc
        (r.1, r.2.1, r.2.2 + 1)
    else (acc, s, 0)

/-- Generator `generateLandSensors`, generalized over the region table (the
source fixes the table to the module constant `REGIONS`; `generateLandSensors`
below is exactly that specialization). Antarctica is filtered out, the feature
index is built, the per-region loops run, and the fallback loop tops the list
up toward `targetCount`. -/
def generateLandSensorsWith (regions : List Region) (countryFeatures : List Feature)
    (seed : ℕ) (now : String) : List Sensor :=
  let filteredFeatures := countryFeatures.filter fun f => f.name ≠ "Antarctica"
  let p := regionsPart filteredFeatures now regions ([], seedInit seed)
  (fallbackLoopAux filteredFeatures now (targetCount regions)
    (targetCount regions * 1600) p.2 p.1).1

/-- Exported `generateLandSensors(countryFeatures, seed = 20260226)` from the
source, with the region table fixed to `REGIONS` and the clock reading made
explicit. -/
def generateLandSensors (countryFeatures : List Feature) (seed : ℕ) (now : String) :
    List Sensor :=
  generateLandSensorsWith REGIONS countryFeatures seed now

/-! ## Viewport helpers (first module of `LandingSensorMap.jsx`) -/

/-- Focus viewport builder `buildFocusViewport(sensor, baseViewport)`: a
`0.05 × 0.08` degree window whose lower corner is clamped into the base
viewport. -/
def buildFocusViewport (sensor : Sensor) (baseViewport : Bounds) : Bounds :=
  let latSpan : ℚ := 5/100
  let lngSpan : ℚ := 8/100
  let minLat := clampQ (sensor.lat - latSpan / 2) baseViewport.minLat (baseViewport.maxLat - latSpan)
  let minLng := clampQ (sensor.lng - lngSpan / 2) baseViewport.minLng (baseViewport.maxLng - lngSpan)
  ⟨minLat, minLat + latSpan, minLng, minLng + lngSpan⟩

/-! ## Live-tick simulator (`src/frontend/src/mock/sensors.js`)

The file `sensors.js` carries two versions of the module. Version A
(lines 98-115) clamps pm25 to `[5, 85]`, temperature to `[15, 30]` and
humidity to `[25, 85]` with deltas `±2.8`, `±0.5`, `±2.5`; version B
(lines 240-257) clamps pm25 to `[5, 95]`, temperature to `[-10, 45]` and
humidity to `[20, 90]` with deltas `±2.2`, `±0.6`, `±2.4`. Both recompute
`status` from the fresh pm25 with `getStatusFromPm25` and stamp `updatedAt`.
-/

/-- Status thresholds `getStatusFromPm25`: `good ≤ 15 < moderate ≤ 30 < poor`. -/
def getStatusFromPm25 (pm25 : ℤ) : String :=
  if pm25 ≤ 15 then "good" else if pm25 ≤ 30 then "moderate" else "poor"

/-- Source helper `randomBetween(min, max) = min + Math.random() * (max - min)`,
with the `Math.random()` draw `r` made explicit. -/
def randomBetween (r lo hi : ℚ) : ℚ := lo + r * (hi - lo)

/-- One record update of version A of `tickSensors`, given the three
`Math.random()` draws it consumes. -/
def tickOneA (r1 r2 r3 : ℚ) (now : String) (sensor : Sensor) : Sensor :=
  let pm25 := jround (clampQ ((sensor.pm25 : ℚ) + randomBetween r1 (-(14/5)) (14/5)) 5 85)
  { sensor with
    pm25 := pm25,
    temperature := roundTo 1 (clampQ (sensor.temperature + randomBetween r2 (-(1/2)) (1/2)) 15 30),
    humidity := jround (clampQ ((sensor.humidity : ℚ) + randomBetween r3 (-(5/2)) (5/2)) 25 85),
    status := getStatusFromPm25 pm25,
    updatedAt := now }

/-- One record update of version B of `tickSensors`, given the three
`Math.random()` draws it consumes. -/
def tickOneB (r1 r2 r3 : ℚ) (now : String) (sensor : Sensor) : Sensor :=
  let pm25 := jround (clampQ ((sensor.pm25 : ℚ) + randomBetween r1 (-(11/5)) (11/5)) 5 95)
  { sensor with
    pm25 := pm25,
    temperature := roundTo 1 (clampQ (sensor.temperature + randomBetween r2 (-(3/5)) (3/5)) (-10) 45),
    humidity := jround (clampQ ((sensor.humidity : ℚ) + randomBetween r3 (-(12/5)) (12/5)) 20 90),
    status := getStatusFromPm25 pm25,
    updatedAt := now }

/-- Sequential `.map` of version A of `tickSensors`: the `i`-th record consumes
the draws `3i, 3i+1, 3i+2` of the `Math.random()` stream. -/
def tickGoA (rnd : ℕ → ℚ) (now : String) : ℕ → List Sensor → List Sensor
  | _, [] => []
  | i, sensor :: rest =>
    tickOneA (rnd (3 * i)) (rnd (3 * i + 1)) (rnd (3 * i + 2)) now sensor ::
      tickGoA rnd now (i + 1) rest

/-- Version A of `tickSensors` (lines 98-115 of `sensors.js`). -/
def tickSensorsA (rnd : ℕ → ℚ) (now : String) (previousSensors : List Sensor) : List Sensor :=
  tickGoA rnd now 0 previousSensors

/-- Sequential `.map` of version B of `tickSensors`. -/
def tickGoB (rnd : ℕ → ℚ) (now : String) : ℕ → List Sensor → List Sensor
  | _, [] => []
  | i, sensor :: rest =>
    tickOneB (rnd (3 * i)) (rnd (3 * i + 1)) (rnd (3 * i + 2)) now sensor ::
      tickGoB rnd now (i + 1) rest

/-- Version B of `tickSensors` (lines 240-257 of `sensors.js`). -/
def tickSensorsB (rnd : ℕ → ℚ) (now : String) (previousSensors : List Sensor) : List Sensor :=
  tickGoB rnd now 0 previousSensors

/-- Iterated application of version A of `tickSensors`: iteration `k` draws
from its own `Math.random()` stream `rnds k` and clock reading `nows k`. -/
def tickIterA (rnds : ℕ → ℕ → ℚ) (nows : ℕ → String) : ℕ → List Sensor → List Sensor
  | 0, prev => prev
  | n + 1, prev => tickSensorsA (rnds n) (nows n) (tickIterA rnds nows n prev)

/-- Iterated application of version B of `tickSensors`. -/
def tickIterB (rnds : ℕ → ℕ → ℚ) (nows : ℕ → String) : ℕ → List Sensor → List Sensor
  | 0, prev => prev
  | n + 1, prev => tickSensorsB (rnds n) (nows n) (tickIterB rnds nows n prev)

/-- Clamp-range invariant of version A of `tickSensors`. -/
def tickInBoundsA (s : Sensor) : Prop :=
  5 ≤ s.pm25 ∧ s.pm25 ≤ 85 ∧ 15 ≤ s.temperature ∧ s.temperature ≤ 30 ∧
    25 ≤ s.humidity ∧ s.humidity ≤ 85

instance (s : Sensor) : Decidable (tickInBoundsA s) := by
  unfold tickInBoundsA; infer_instance

/-- Clamp-range invariant of version B of `tickSensors`. -/
def tickInBoundsB (s : Sensor) : Prop :=
  5 ≤ s.pm25 ∧ s.pm25 ≤ 95 ∧ -10 ≤ s.temperature ∧ s.temperature ≤ 45 ∧
    20 ≤ s.humidity ∧ s.humidity ≤ 90

instance (s : Sensor) : Decidable (tickInBoundsB s) := by
  unfold tickInBoundsB; infer_instance

/-! ## Status/pm25 band coupling -/

/-- Status and pm25 agree on a quality band: good with pm25 in `[8, 15]`,
moderate with pm25 in `[18, 28]`, or poor with pm25 in `[32, 48]`. -/
def statusBandOK (r : Sensor) : Prop :=
  (r.status = "good" ∧ 8 ≤ r.pm25 ∧ r.pm25 ≤ 15) ∨
    (r.status = "moderate" ∧ 18 ≤ r.pm25 ∧ r.pm25 ≤ 28) ∨
    (r.status = "poor" ∧ 32 ≤ r.pm25 ∧ r.pm25 ≤ 48)

instance (r : Sensor) : Decidable (statusBandOK r) := by
  unfold statusBandOK; infer_instance

/-- Record projection that drops the `updatedAt` timestamp. -/
def stripUpdatedAt (r : Sensor) : Sensor := { r with updatedAt := "" }

/-- Frame projection: the fields `tickSensors` must preserve. -/
def frameProj (s : Sensor) : String × String × ℚ × ℚ × ℚ :=
  (s.id, s.name, s.lat, s.lng, s.intensity)

/-! ## Concrete fixtures for the scenario claims -/

/-- Single test region of the spec scenario: 2 degrees of latitude and
longitude around the origin, five sensors. -/
def c1Region : Region := ⟨"region", ⟨-1, 1, -1, 1⟩, 5⟩

/-- Boundary feature whose bounding box and containment test accept every
point: placement under it is effectively unconstrained. -/
def landEverywhere : Feature := ⟨"land", ⟨-90, 90, -180, 180⟩, fun _ _ => true⟩

/-- Test region for the rounding counterexample: the unit square with one
sensor. -/
def c6Region : Region := ⟨"c6", ⟨0, 1, 0, 1⟩, 1⟩

/-- Tiny bounding box (side `2 / 2^32` degrees) centered on the first point
the PRNG with seed 20260226 samples inside `c6Region`. -/
def c6Box : Bounds :=
  ⟨583378680/4294967296, 583378682/4294967296,
   256943107/4294967296, 256943109/4294967296⟩

/-- Rectangular island feature for the rounding counterexample: a tiny patch
of land around the first sampled point, too small to contain its 4-decimal
rounding. -/
def c6Feature : Feature := ⟨"tiny-island", c6Box, fun lng lat => pointInBounds c6Box lng lat⟩

/-- Record of the spec tick scenario: `{pm25: 12, temperature: 20.0,
humidity: 40, status: "good"}`. -/
def c7Record : Sensor := ⟨"room", "Room", 0, 0, "good", 12, 20, 40, "t0", 1⟩

/-- Clock reading used for the concrete scenario runs. -/
def c1Now : String := "2026-02-26T00:00:00.000Z"

/-- Output of the spec scenario run with an all-accepting boundary feature. -/
def c1Out : List Sensor :=
  generateLandSensorsWith [c1Region] [landEverywhere] 20260226 c1Now

/-- First record of the scenario run (hand-evaluated LCG values, checked by
kernel reduction below). -/
def c1Rec1 : Sensor :=
  ⟨"region-1", "Sensor REGION-1", -(7283/10000), -(2201/2500), "good", 12, 111/5, 62, c1Now, 39/50⟩

/-- Second record of the scenario run. -/
def c1Rec2 : Sensor :=
  ⟨"region-2", "Sensor REGION-2", 3927/10000, -(1049/1250), "good", 15, 17, 33, c1Now, 39/50⟩

/-- Third record of the scenario run. -/
def c1Rec3 : Sensor :=
  ⟨"region-3", "Sensor REGION-3", -(7319/10000), -(4043/5000), "moderate", 19, 81/5, 55, c1Now, 19/25⟩

/-- Fourth record of the scenario run. -/
def c1Rec4 : Sensor :=
  ⟨"region-4", "Sensor REGION-4", 2413/2500, -(5729/10000), "good", 11, 277/10, 45, c1Now, 81/100⟩

/-- Fifth record of the scenario run. -/
def c1Rec5 : Sensor :=
  ⟨"region-5", "Sensor REGION-5", 319/400, 5851/10000, "good", 9, 137/5, 52, c1Now, 13/10⟩

/-- The five records of the scenario run, in generation order. -/
def c1Sensors : List Sensor := [c1Rec1, c1Rec2, c1Rec3, c1Rec4, c1Rec5]

/-- Record produced by one accepted fallback iteration from PRNG state 1. -/
def c5Rec : Sensor :=
  ⟨"global-1", "Sensor GLOBAL-1", -(13288/625), -(26626/625), "good", 13, 84/5, 46, "t", 29/20⟩

/-- Record produced by the per-region loop of the rounding counterexample. -/
def c6Rec : Sensor :=
  ⟨"c6-1", "Sensor C6-1", 679/5000, 299/5000, "good", 12, 111/5, 62, "t", 39/50⟩

/-- Sensor used in the focus-viewport scenarios. -/
def c9Sensor : Sensor := ⟨"s", "S", 1/2, 1/2, "good", 10, 20, 50, "t", 1⟩

/-- Degenerate base viewport whose latitude span (`0.01`) is smaller than the
focus span (`0.05`). -/
def c9Base : Bounds := ⟨0, 1/100, 0, 1⟩

/-- Well-sized base viewport for the focus-viewport witness. -/
def c9BaseWide : Bounds := ⟨0, 1, 0, 1⟩

/-! ## Lemmas

Concrete runs are evaluated by `decide`; the Batteries rational operations are
restored to their default reducibility inside this file so that kernel
reduction can step through them. -/

attribute [local semireducible] Rat.add Rat.mul Rat.sub Rat.inv Rat.ofScientific

theorem nextState_lt (s : ℕ) : nextState s < UINT32 :=
  Nat.mod_lt _ (by norm_num [UINT32])

theorem randNext_fst_nonneg (s : ℕ) : 0 ≤ (randNext s).1 := by
  unfold randNext
  positivity

theorem randNext_fst_lt_one (s : ℕ) : (randNext s).1 < 1 := by
  have h := nextState_lt s
  unfold randNext
  rw [div_lt_one (by norm_num [UINT32])]
  exact_mod_cast h

theorem le_jround {a : ℤ} {q : ℚ} (h : (a : ℚ) ≤ q) : a ≤ jround q := by
  unfold jround
  exact Int.le_floor.mpr (by linarith)

theorem jround_le {b : ℤ} {q : ℚ} (h : q ≤ (b : ℚ)) : jround q ≤ b := by
  unfold jround
  have : (⌊q + 1/2⌋ : ℤ) < b + 1 := by
    rw [Int.floor_lt]
    push_cast
    linarith
  omega

theorem roundTo_bounds (d : ℕ) (a b : ℤ) (q : ℚ) (h1 : (a : ℚ) ≤ q) (h2 : q ≤ (b : ℚ)) :
    (a : ℚ) ≤ roundTo d q ∧ roundTo d q ≤ (b : ℚ) := by
  have hp : (0 : ℚ) < 10 ^ d := by positivity
  have hlo : (a * 10 ^ d : ℤ) ≤ jround (q * 10 ^ d) := by
    apply le_jround
    push_cast
    exact mul_le_mul_of_nonneg_right h1 hp.le
  have hhi : jround (q * 10 ^ d) ≤ (b * 10 ^ d : ℤ) := by
    apply jround_le
    push_cast
    exact mul_le_mul_of_nonneg_right h2 hp.le
  unfold roundTo
  constructor
  · rw [le_div_iff₀ hp]
    calc (a : ℚ) * 10 ^ d = ((a * 10 ^ d : ℤ) : ℚ) := by push_cast; ring
    _ ≤ _ := by exact_mod_cast hlo
  · rw [div_le_iff₀ hp]
    calc (jround (q * 10 ^ d) : ℚ) ≤ ((b * 10 ^ d : ℤ) : ℚ) := by exact_mod_cast hhi
    _ = (b : ℚ) * 10 ^ d := by push_cast; ring

theorem clampQ_mem (v : ℚ) {lo hi : ℚ} (h : lo ≤ hi) :
    lo ≤ clampQ v lo hi ∧ clampQ v lo hi ≤ hi :=
  ⟨le_min h (le_max_left lo v), min_le_left hi _⟩

/-! ### Payload facts -/

theorem createSensorPayload_updatedAt (k : String) (n : ℕ) (lat lng : ℚ) (s : ℕ)
    (now : String) : ((createSensorPayload k n lat lng s now).1).updatedAt = now := rfl

theorem createSensorPayload_strip (k : String) (n : ℕ) (lat lng : ℚ) (s : ℕ)
    (now now' : String) :
    stripUpdatedAt (createSensorPayload k n lat lng s now).1 =
      stripUpdatedAt (createSensorPayload k n lat lng s now').1 := rfl

theorem createSensorPayload_snd (k : String) (n : ℕ) (lat lng : ℚ) (s : ℕ)
    (now now' : String) :
    (createSensorPayload k n lat lng s now).2 = (createSensorPayload k n lat lng s now').2 := rfl

theorem createSensorPayload_lat (k : String) (n : ℕ) (lat lng : ℚ) (s : ℕ)
    (now : String) : ((createSensorPayload k n lat lng s now).1).lat = roundTo 4 lat := rfl

theorem createSensorPayload_lng (k : String) (n : ℕ) (lat lng : ℚ) (s : ℕ)
    (now : String) : ((createSensorPayload k n lat lng s now).1).lng = roundTo 4 lng := rfl

theorem createSensorPayload_band (k : String) (n : ℕ) (lat lng : ℚ) (s : ℕ)
    (now : String) : statusBandOK (createSensorPayload k n lat lng s now).1 := by
  have hd0 : (0 : ℚ) ≤ (randNext (randNext s).2).1 := randNext_fst_nonneg _
  have hd1 : (randNext (randNext s).2).1 < 1 := randNext_fst_lt_one _
  unfold statusBandOK createSensorPayload
  by_cases h1 : (randNext s).1 < 63/100
  · refine Or.inl ⟨by simp [h1], ?_, ?_⟩
    · simp only [h1, if_true]
      exact le_jround (by push_cast; nlinarith)
    · simp only [h1, if_true]
      exact jround_le (by push_cast; nlinarith)
  · by_cases h2 : (randNext s).1 < 88/100
    · refine Or.inr (Or.inl ⟨by simp [h1, h2], ?_, ?_⟩)
      · simp only [h1, h2, if_false, if_true]
        exact le_jround (by push_cast; nlinarith)
      · simp only [h1, h2, if_false, if_true]
        exact jround_le (by push_cast; nlinarith)
    · refine Or.inr (Or.inr ⟨by simp [h1, h2], ?_, ?_⟩)
      · simp only [h1, h2, if_false]
        exact le_jround (by push_cast; nlinarith)
      · simp only [h1, h2, if_false]
        exact jround_le (by push_cast; nlinarith)

theorem createSensorPayload_status_roll (k : String) (n : ℕ) (lat lng : ℚ) (s : ℕ)
    (now : String) :
    ((createSensorPayload k n lat lng s now).1).status =
      (if (randNext s).1 < 63/100 then "good"
       else if (randNext s).1 < 88/100 then "moderate" else "poor") := rfl

/-! ### Loop membership -/

theorem regionLoopAux_mem (fi : List Feature) (region : Region) (now : String) :
    ∀ (fuel count s : ℕ) (acc : List Sensor) (r : Sensor),
      r ∈ (regionLoopAux fi region now fuel count s acc).1 →
        r ∈ acc ∨ ∃ seq lat lng s', isPointOnLand fi lng lat = true ∧
          r = (createSensorPayload region.key seq lat lng s' now).1 := by
  intro fuel
  induction fuel with
  | zero =>
    intro count s acc r h
    exact Or.inl h
  | succ n ih =>
    intro count s acc r h
    by_cases hc : count < region.count
    · simp only [regionLoopAux, if_pos hc] at h
      by_cases hl : isPointOnLand fi
          (randomInRange (randomInRange s region.bounds.minLat region.bounds.maxLat).2
            region.bounds.minLng region.bounds.maxLng).1
          (randomInRange s region.bounds.minLat region.bounds.maxLat).1
      · rw [if_pos hl] at h
        rcases ih _ _ _ _ h with hmem | hpay
        · rcases List.mem_append.mp hmem with hmem' | hone
          · exact Or.inl hmem'
          · rcases List.mem_singleton.mp hone with rfl
            exact Or.inr ⟨count + 1, _, _, _, hl, rfl⟩
        · exact Or.inr hpay
      · rw [if_neg hl] at h
        exact ih _ _ _ _ h
    · simp only [regionLoopAux, if_neg hc] at h
      exact Or.inl h

theorem regionsPart_mem (fi : List Feature) (now : String) :
    ∀ (regions : List Region) (p : List Sensor × ℕ) (r : Sensor),
      r ∈ (regionsPart fi now regions p).1 →
        r ∈ p.1 ∨ ∃ key seq lat lng s', isPointOnLand fi lng lat = true ∧
          r = (createSensorPayload key seq lat lng s' now).1 := by
  intro regions
  induction regions with
  | nil =>
    intro p r h
    exact Or.inl h
  | cons region rest ih =>
    intro p r h
    simp only [regionsPart] at h
    rcases ih _ _ h with hmem | hpay
    · rcases regionLoopAux_mem fi region now _ _ _ _ _ hmem with hmem' | hpay'
      · exact Or.inl hmem'
      · rcases hpay' with ⟨seq, lat, lng, s', hl, he⟩
        exact Or.inr ⟨region.key, seq, lat, lng, s', hl, he⟩
    · exact Or.inr hpay

theorem fallbackLoopAux_mem (fi : List Feature) (now : String) (tc : ℕ) :
    ∀ (fuel s : ℕ) (acc : List Sensor) (r : Sensor),
      r ∈ (fallbackLoopAux fi now tc fuel s acc).1 →
        r ∈ acc ∨ ∃ seq lat lng s', isPointOnLand fi lng lat = true ∧
          r = (createSensorPayload "global" seq (clampQ lat (-58) 82)
                (clampQ lng (-176) 176) s' now).1 := by
  intro fuel
  induction fuel with
  | zero =>
    intro s acc r h
    exact Or.inl h
  | succ n ih =>
    intro s acc r h
    by_cases hc : acc.length < tc
    · simp only [fallbackLoopAux, if_pos hc] at h
      by_cases hl : isPointOnLand fi
          (randomInRange (randomInRange s FALLBACK_BOUNDS.minLat FALLBACK_BOUNDS.maxLat).2
            FALLBACK_BOUNDS.minLng FALLBACK_BOUNDS.maxLng).1
          (randomInRange s FALLBACK_BOUNDS.minLat FALLBACK_BOUNDS.maxLat).1
      · rw [if_pos hl] at h
        rcases ih _ _ _ h with hmem | hpay
        · rcases List.mem_append.mp hmem with hmem' | hone
          · exact Or.inl hmem'
          · rcases List.mem_singleton.mp hone with rfl
            exact Or.inr ⟨acc.length + 1, _, _, _, hl, rfl⟩
        · exact Or.inr hpay
      · rw [if_neg hl] at h
        exact ih _ _ _ h
    · simp only [fallbackLoopAux, if_neg hc] at h
      exact Or.inl h

/-- Every record of a generator run is some payload stamped with the run's
clock reading. -/
theorem generateLandSensorsWith_mem {regions : List Region} {fs : List Feature}
    {seed : ℕ} {now : String} {r : Sensor}
    (h : r ∈ generateLandSensorsWith regions fs seed now) :
    ∃ key seq lat lng s',
      r = (createSensorPayload key seq lat lng s' now).1 := by
  unfold generateLandSensorsWith at h
  rcases fallbackLoopAux_mem _ now _ _ _ _ _ h with hmem | hpay
  · rcases regionsPart_mem _ now _ _ _ hmem with hmem' | hpay'
    · simp at hmem'
    · rcases hpay' with ⟨key, seq, lat, lng, s', _, he⟩
      exact ⟨key, seq, lat, lng, s', he⟩
  · rcases hpay with ⟨seq, lat, lng, s', _, he⟩
    exact ⟨"global", seq, _, _, s', he⟩

/-! ### Runs without accepted points -/

theorem isPointOnLand_nil (lng lat : ℚ) : isPointOnLand [] lng lat = false := rfl

theorem regionLoopAux_nil (region : Region) (now : String) :
    ∀ (fuel count s : ℕ) (acc : List Sensor),
      (regionLoopAux [] region now fuel count s acc).1 = acc := by
  intro fuel
  induction fuel with
  | zero => intro count s acc; rfl
  | succ n ih =>
    intro count s acc
    by_cases hc : count < region.count
    · simp only [regionLoopAux, if_pos hc, isPointOnLand_nil, if_neg Bool.false_ne_true]
      exact ih _ _ _
    · simp only [regionLoopAux, if_neg hc]

theorem regionsPart_nil (now : String) :
    ∀ (regions : List Region) (p : List Sensor × ℕ),
      (regionsPart [] now regions p).1 = p.1 := by
  intro regions
  induction regions with
  | nil => intro p; rfl
  | cons region rest ih =>
    intro p
    simp only [regionsPart]
    rw [ih, regionLoopAux_nil]

theorem fallbackLoopAux_nil (now : String) (tc : ℕ) :
    ∀ (fuel s : ℕ) (acc : List Sensor),
      (fallbackLoopAux [] now tc fuel s acc).1 = acc := by
  intro fuel
  induction fuel with
  | zero => intro s acc; rfl
  | succ n ih =>
    intro s acc
    by_cases hc : acc.length < tc
    · simp only [fallbackLoopAux, if_pos hc, isPointOnLand_nil, if_neg Bool.false_ne_true]
      exact ih _ _
    · simp only [fallbackLoopAux, if_neg hc]

/-- With no boundary features at all, every sample is rejected and the
generator returns the empty list. -/
theorem generateLandSensorsWith_nil (regions : List Region) (seed : ℕ) (now : String) :
    generateLandSensorsWith regions [] seed now = [] := by
  unfold generateLandSensorsWith
  simp only [List.filter_nil]
  rw [fallbackLoopAux_nil, regionsPart_nil]

/-! ### Attempt and length bounds -/

theorem regionLoopAux_iters_le (fi : List Feature) (region : Region) (now : String) :
    ∀ (fuel count s : ℕ) (acc : List Sensor),
      (regionLoopAux fi region now fuel count s acc).2.2 ≤ fuel := by
  intro fuel
  induction fuel with
  | zero => intro count s acc; exact Nat.le_refl 0 |>.trans (Nat.zero_le 0)
  | succ n ih =>
    intro count s acc
    by_cases hc : count < region.count
    · simp only [regionLoopAux, if_pos hc]
      split
      · exact Nat.succ_le_succ (ih _ _ _)
      · exact Nat.succ_le_succ (ih _ _ _)
    · simp only [regionLoopAux, if_neg hc]
      exact Nat.zero_le _

theorem fallbackLoopAux_iters_le (fi : List Feature) (now : String) (tc : ℕ) :
    ∀ (fuel s : ℕ) (acc : List Sensor),
      (fallbackLoopAux fi now tc fuel s acc).2.2 ≤ fuel := by
  intro fuel
  induction fuel with
  | zero => intro s acc; exact Nat.zero_le 0
  | succ n ih =>
    intro s acc
    by_cases hc : acc.length < tc
    · simp only [fallbackLoopAux, if_pos hc]
      split
      · exact Nat.succ_le_succ (ih _ _)
      · exact Nat.succ_le_succ (ih _ _)
    · simp only [fallbackLoopAux, if_neg hc]
      exact Nat.zero_le _

theorem regionLoopAux_length (fi : List Feature) (region : Region) (now : String) :
    ∀ (fuel count s : ℕ) (acc : List Sensor),
      (regionLoopAux fi region now fuel count s acc).1.length ≤
        acc.length + (region.count - count) := by
  intro fuel
  induction fuel with
  | zero => intro count s acc; simp [regionLoopAux]
  | succ n ih =>
    intro count s acc
    by_cases hc : count < region.count
    · simp only [regionLoopAux, if_pos hc]
      split
      · dsimp only
        have := ih (count + 1)
          (createSensorPayload region.key (count + 1)
            (randomInRange s region.bounds.minLat region.bounds.maxLat).1
            (randomInRange (randomInRange s region.bounds.minLat region.bounds.maxLat).2
              region.bounds.minLng region.bounds.maxLng).1
            (randomInRange (randomInRange s region.bounds.minLat region.bounds.maxLat).2
              region.bounds.minLng region.bounds.maxLng).2 now).2
          (acc ++
            [(createSensorPayload region.key (count + 1)
              (randomInRange s region.bounds.minLat region.bounds.maxLat).1
              (randomInRange (randomInRange s region.bounds.minLat region.bounds.maxLat).2
                region.bounds.minLng region.bounds.maxLng).1
              (randomInRange (randomInRange s region.bounds.minLat region.bounds.maxLat).2
                region.bounds.minLng region.bounds.maxLng).2 now).1])
        simp only [List.length_append, List.length_singleton] at this
        omega
      · dsimp only
        have := ih count
          (randomInRange (randomInRange s region.bounds.minLat region.bounds.maxLat).2
            region.bounds.minLng region.bounds.maxLng).2 acc
        omega
    · simp only [regionLoopAux, if_neg hc]
      omega

theorem targetCount_shift (regions : List Region) :
    ∀ n : ℕ, regions.foldl (fun sum r => sum + r.count) n = n + targetCount regions := by
  induction regions with
  | nil => intro n; simp [targetCount]
  | cons region rest ih =>
    intro n
    simp only [targetCount, List.foldl_cons]
    rw [ih (n + region.count), ih (0 + region.count)]
    omega

theorem targetCount_cons (region : Region) (rest : List Region) :
    targetCount (region :: rest) = region.count + targetCount rest := by
  simp only [targetCount, List.foldl_cons, Nat.zero_add]
  exact targetCount_shift rest region.count

theorem regionsPart_length (fi : List Feature) (now : String) :
    ∀ (regions : List Region) (p : List Sensor × ℕ),
      (regionsPart fi now regions p).1.length ≤ p.1.length + targetCount regions := by
  intro regions
  induction regions with
  | nil => intro p; simp [regionsPart, targetCount]
  | cons region rest ih =>
    intro p
    simp only [regionsPart]
    have h1 := ih (((regionLoopAux fi region now (region.count * 900) 0 p.2 p.1).1,
      (regionLoopAux fi region now (region.count * 900) 0 p.2 p.1).2.1))
    have h2 := regionLoopAux_length fi region now (region.count * 900) 0 p.2 p.1
    rw [targetCount_cons]
    simp only at h1
    omega

theorem fallbackLoopAux_length (fi : List Feature) (now : String) (tc : ℕ) :
    ∀ (fuel s : ℕ) (acc : List Sensor),
      (fallbackLoopAux fi now tc fuel s acc).1.length ≤ max acc.length tc := by
  intro fuel
  induction fuel with
  | zero => intro s acc; simp [fallbackLoopAux]
  | succ n ih =>
    intro s acc
    by_cases hc : acc.length < tc
    · simp only [fallbackLoopAux, if_pos hc]
      split
      · dsimp only
        have := ih
          (createSensorPayload "global" (acc.length + 1)
            (clampQ (randomInRange s FALLBACK_BOUNDS.minLat FALLBACK_BOUNDS.maxLat).1 (-58) 82)
            (clampQ (randomInRange (randomInRange s FALLBACK_BOUNDS.minLat FALLBACK_BOUNDS.maxLat).2
              FALLBACK_BOUNDS.minLng FALLBACK_BOUNDS.maxLng).1 (-176) 176)
            (randomInRange (randomInRange s FALLBACK_BOUNDS.minLat FALLBACK_BOUNDS.maxLat).2
              FALLBACK_BOUNDS.minLng FALLBACK_BOUNDS.maxLng).2 now).2
          (acc ++
            [(createSensorPayload "global" (acc.length + 1)
              (clampQ (randomInRange s FALLBACK_BOUNDS.minLat FALLBACK_BOUNDS.maxLat).1 (-58) 82)
              (clampQ (randomInRange (randomInRange s FALLBACK_BOUNDS.minLat FALLBACK_BOUNDS.maxLat).2
                FALLBACK_BOUNDS.minLng FALLBACK_BOUNDS.maxLng).1 (-176) 176)
              (randomInRange (randomInRange s FALLBACK_BOUNDS.minLat FALLBACK_BOUNDS.maxLat).2
                FALLBACK_BOUNDS.minLng FALLBACK_BOUNDS.maxLng).2 now).1])
        simp only [List.length_append, List.length_singleton] at this
        omega
      · dsimp only
        have := ih
          (randomInRange (randomInRange s FALLBACK_BOUNDS.minLat FALLBACK_BOUNDS.maxLat).2
            FALLBACK_BOUNDS.minLng FALLBACK_BOUNDS.maxLng).2 acc
        omega
    · simp only [fallbackLoopAux, if_neg hc]
      omega

/-- The run can fall short of the target, but never overshoots it. -/
theorem generateLandSensorsWith_length (regions : List Region) (fs : List Feature)
    (seed : ℕ) (now : String) :
    (generateLandSensorsWith regions fs seed now).length ≤ targetCount regions := by
  unfold generateLandSensorsWith
  dsimp only
  have h1 := regionsPart_length (fs.filter fun f => f.name ≠ "Antarctica") now regions
    ([], seedInit seed)
  have h2 := fallbackLoopAux_length (fs.filter fun f => f.name ≠ "Antarctica") now
    (targetCount regions) (targetCount regions * 1600)
    (regionsPart (fs.filter fun f => f.name ≠ "Antarctica") now regions ([], seedInit seed)).2
    (regionsPart (fs.filter fun f => f.name ≠ "Antarctica") now regions ([], seedInit seed)).1
  simp only [List.length_nil, Nat.zero_add] at h1
  omega

/-- The fallback loop does not run once the target count is reached. -/
theorem fallbackLoopAux_stop (fi : List Feature) (now : String) (tc : ℕ)
    (s : ℕ) (acc : List Sensor) (h : ¬ acc.length < tc) :
    ∀ fuel, fallbackLoopAux fi now tc fuel s acc = (acc, s, 0) := by
  intro fuel
  cases fuel with
  | zero => rfl
  | succ n => simp [fallbackLoopAux, h]

/-- Every record of a run is stamped with the run's clock reading. -/
theorem generateLandSensorsWith_updatedAt {regions : List Region} {fs : List Feature}
    {seed : ℕ} {now : String} {r : Sensor}
    (h : r ∈ generateLandSensorsWith regions fs seed now) : r.updatedAt = now := by
  rcases generateLandSensorsWith_mem h with ⟨key, seq, lat, lng, s', he⟩
  rw [he]
  exact createSensorPayload_updatedAt key seq lat lng s' now

/-! ### Timestamp independence -/


theorem regionLoopAux_now (fi : List Feature) (region : Region) (now now' : String) :
    ∀ (fuel count s : ℕ) (acc acc' : List Sensor),
      acc.map stripUpdatedAt = acc'.map stripUpdatedAt →
      (regionLoopAux fi region now fuel count s acc).1.map stripUpdatedAt =
        (regionLoopAux fi region now' fuel count s acc').1.map stripUpdatedAt ∧
      (regionLoopAux fi region now fuel count s acc).2 =
        (regionLoopAux fi region now' fuel count s acc').2 := by
  intro fuel
  induction fuel with
  | zero => intro count s acc acc' hmap; exact ⟨hmap, rfl⟩
  | succ n ih =>
    intro count s acc acc' hmap
    by_cases hc : count < region.count
    · by_cases hl : isPointOnLand fi
          (randomInRange (randomInRange s region.bounds.minLat region.bounds.maxLat).2
            region.bounds.minLng region.bounds.maxLng).1
          (randomInRange s region.bounds.minLat region.bounds.maxLat).1
      · simp only [regionLoopAux, if_pos hc, if_pos hl]
        rw [createSensorPayload_snd _ _ _ _ _ now now']
        have hmap' := hmap
        rcases ih (count + 1)
          (createSensorPayload region.key (count + 1)
            (randomInRange s region.bounds.minLat region.bounds.maxLat).1
            (randomInRange (randomInRange s region.bounds.minLat region.bounds.maxLat).2
              region.bounds.minLng region.bounds.maxLng).1
            (randomInRange (randomInRange s region.bounds.minLat region.bounds.maxLat).2
              region.bounds.minLng region.bounds.maxLng).2 now').2
          (acc ++
            [(createSensorPayload region.key (count + 1)
              (randomInRange s region.bounds.minLat region.bounds.maxLat).1
              (randomInRange (randomInRange s region.bounds.minLat region.bounds.maxLat).2
                region.bounds.minLng region.bounds.maxLng).1
              (randomInRange (randomInRange s region.bounds.minLat region.bounds.maxLat).2
                region.bounds.minLng region.bounds.maxLng).2 now).1])
          (acc' ++
            [(createSensorPayload region.key (count + 1)
              (randomInRange s region.bounds.minLat region.bounds.maxLat).1
              (randomInRange (randomInRange s region.bounds.minLat region.bounds.maxLat).2
                region.bounds.minLng region.bounds.maxLng).1
              (randomInRange (randomInRange s region.bounds.minLat region.bounds.maxLat).2
                region.bounds.minLng region.bounds.maxLng).2 now').1])
          (by simp only [List.map_append, List.map_cons, List.map_nil, hmap,
                createSensorPayload_strip _ _ _ _ _ now now'])
          with ⟨ha, hb⟩
        exact ⟨ha, by rw [hb]⟩
      · simp only [regionLoopAux, if_pos hc, if_neg hl]
        rcases ih count
          (randomInRange (randomInRange s region.bounds.minLat region.bounds.maxLat).2
            region.bounds.minLng region.bounds.maxLng).2 acc acc' hmap with ⟨ha, hb⟩
        exact ⟨ha, by rw [hb]⟩
    · simp only [regionLoopAux, if_neg hc]
      exact ⟨hmap, trivial⟩



theorem fallbackLoopAux_now (fi : List Feature) (now now' : String) (tc : ℕ) :
    ∀ (fuel s : ℕ) (acc acc' : List Sensor),
      acc.map stripUpdatedAt = acc'.map stripUpdatedAt →
      (fallbackLoopAux fi now tc fuel s acc).1.map stripUpdatedAt =
        (fallbackLoopAux fi now' tc fuel s acc').1.map stripUpdatedAt ∧
      (fallbackLoopAux fi now tc fuel s acc).2 =
        (fallbackLoopAux fi now' tc fuel s acc').2 := by
  intro fuel
  induction fuel with
  | zero => intro s acc acc' hmap; exact ⟨hmap, rfl⟩
  | succ n ih =>
    intro s acc acc' hmap
    have hlen : acc.length = acc'.length := by
      have h := congrArg List.length hmap
      simpa using h
    by_cases hc : acc.length < tc
    · have hc' : acc'.length < tc := hlen ▸ hc
      by_cases hl : isPointOnLand fi
          (randomInRange (randomInRange s FALLBACK_BOUNDS.minLat FALLBACK_BOUNDS.maxLat).2
            FALLBACK_BOUNDS.minLng FALLBACK_BOUNDS.maxLng).1
          (randomInRange s FALLBACK_BOUNDS.minLat FALLBACK_BOUNDS.maxLat).1
      · simp only [fallbackLoopAux, if_pos hc, if_pos hc', if_pos hl]
        rw [createSensorPayload_snd _ _ _ _ _ now now', hlen]
        rcases ih
          (createSensorPayload "global" (acc'.length + 1)
            (clampQ (randomInRange s FALLBACK_BOUNDS.minLat FALLBACK_BOUNDS.maxLat).1 (-58) 82)
            (clampQ (randomInRange (randomInRange s FALLBACK_BOUNDS.minLat FALLBACK_BOUNDS.maxLat).2
              FALLBACK_BOUNDS.minLng FALLBACK_BOUNDS.maxLng).1 (-176) 176)
            (randomInRange (randomInRange s FALLBACK_BOUNDS.minLat FALLBACK_BOUNDS.maxLat).2
              FALLBACK_BOUNDS.minLng FALLBACK_BOUNDS.maxLng).2 now').2
          (acc ++
            [(createSensorPayload "global" (acc'.length + 1)
              (clampQ (randomInRange s FALLBACK_BOUNDS.minLat FALLBACK_BOUNDS.maxLat).1 (-58) 82)
              (clampQ (randomInRange (randomInRange s FALLBACK_BOUNDS.minLat FALLBACK_BOUNDS.maxLat).2
                FALLBACK_BOUNDS.minLng FALLBACK_BOUNDS.maxLng).1 (-176) 176)
              (randomInRange (randomInRange s FALLBACK_BOUNDS.minLat FALLBACK_BOUNDS.maxLat).2
                FALLBACK_BOUNDS.minLng FALLBACK_BOUNDS.maxLng).2 now).1])
          (acc' ++
            [(createSensorPayload "global" (acc'.length + 1)
              (clampQ (randomInRange s FALLBACK_BOUNDS.minLat FALLBACK_BOUNDS.maxLat).1 (-58) 82)
              (clampQ (randomInRange (randomInRange s FALLBACK_BOUNDS.minLat FALLBACK_BOUNDS.maxLat).2
                FALLBACK_BOUNDS.minLng FALLBACK_BOUNDS.maxLng).1 (-176) 176)
              (randomInRange (randomInRange s FALLBACK_BOUNDS.minLat FALLBACK_BOUNDS.maxLat).2
                FALLBACK_BOUNDS.minLng FALLBACK_BOUNDS.maxLng).2 now').1])
          (by simp only [List.map_append, List.map_cons, List.map_nil, hmap,
                createSensorPayload_strip _ _ _ _ _ now now'])
          with ⟨ha, hb⟩
        exact ⟨ha, by rw [hb]⟩
      · simp only [fallbackLoopAux, if_pos hc, if_pos hc', if_neg hl]
        rcases ih
          (randomInRange (randomInRange s FALLBACK_BOUNDS.minLat FALLBACK_BOUNDS.maxLat).2
            FALLBACK_BOUNDS.minLng FALLBACK_BOUNDS.maxLng).2 acc acc' hmap with ⟨ha, hb⟩
        exact ⟨ha, by rw [hb]⟩
    · have hc' : ¬ acc'.length < tc := hlen ▸ hc
      simp only [fallbackLoopAux, if_neg hc, if_neg hc']
      exact ⟨hmap, trivial⟩

theorem regionsPart_now (fi : List Feature) (now now' : String) :
    ∀ (regions : List Region) (p p' : List Sensor × ℕ),
      p.1.map stripUpdatedAt = p'.1.map stripUpdatedAt → p.2 = p'.2 →
      (regionsPart fi now regions p).1.map stripUpdatedAt =
        (regionsPart fi now' regions p').1.map stripUpdatedAt ∧
      (regionsPart fi now regions p).2 = (regionsPart fi now' regions p').2 := by
  intro regions
  induction regions with
  | nil => intro p p' h1 h2; exact ⟨h1, h2⟩
  | cons region rest ih =>
    intro p p' h1 h2
    simp only [regionsPart]
    rw [h2]
    rcases regionLoopAux_now fi region now now' (region.count * 900) 0 p'.2 p.1 p'.1 h1
      with ⟨ha, hb⟩
    exact ih _ _ ha (by rw [hb])

theorem generateLandSensorsWith_now (regions : List Region) (fs : List Feature)
    (seed : ℕ) (now now' : String) :
    (generateLandSensorsWith regions fs seed now).map stripUpdatedAt =
      (generateLandSensorsWith regions fs seed now').map stripUpdatedAt := by
  unfold generateLandSensorsWith
  dsimp only
  rcases regionsPart_now (fs.filter fun f => f.name ≠ "Antarctica") now now' regions
    ([], seedInit seed) ([], seedInit seed) rfl rfl with ⟨h1, h2⟩
  rw [h2]
  exact (fallbackLoopAux_now (fs.filter fun f => f.name ≠ "Antarctica") now now'
    (targetCount regions) (targetCount regions * 1600) _ _ _ h1).1


/-- Records appended by the fallback loop have clamped coordinates. -/
theorem fallbackLoopAux_coord_bounds (fi : List Feature) (now : String) (tc : ℕ)
    (fuel s : ℕ) (acc : List Sensor) (r : Sensor)
    (h : r ∈ (fallbackLoopAux fi now tc fuel s acc).1) :
    r ∈ acc ∨ (-58 ≤ r.lat ∧ r.lat ≤ 82 ∧ -176 ≤ r.lng ∧ r.lng ≤ 176) := by
  rcases fallbackLoopAux_mem fi now tc fuel s acc r h with hmem | hpay
  · exact Or.inl hmem
  · rcases hpay with ⟨seq, lat, lng, s', _, he⟩
    refine Or.inr ?_
    rw [he, createSensorPayload_lat, createSensorPayload_lng]
    have hlat := clampQ_mem lat (by norm_num : (-58 : ℚ) ≤ 82)
    have hlng := clampQ_mem lng (by norm_num : (-176 : ℚ) ≤ 176)
    have h1 := roundTo_bounds 4 (-58) 82 (clampQ lat (-58) 82)
      (by exact_mod_cast hlat.1) (by exact_mod_cast hlat.2)
    have h2 := roundTo_bounds 4 (-176) 176 (clampQ lng (-176) 176)
      (by exact_mod_cast hlng.1) (by exact_mod_cast hlng.2)
    push_cast at h1 h2
    exact ⟨h1.1, h1.2, h2.1, h2.2⟩

/-! ### Tick simulator lemmas -/

theorem tickOneB_bounds (r1 r2 r3 : ℚ) (now : String) (s : Sensor) :
    tickInBoundsB (tickOneB r1 r2 r3 now s) := by
  unfold tickOneB tickInBoundsB
  have hpm := clampQ_mem ((s.pm25 : ℚ) + randomBetween r1 (-(11/5)) (11/5))
    (by norm_num : (5 : ℚ) ≤ 95)
  have htc := clampQ_mem (s.temperature + randomBetween r2 (-(3/5)) (3/5))
    (by norm_num : (-10 : ℚ) ≤ 45)
  have hhc := clampQ_mem ((s.humidity : ℚ) + randomBetween r3 (-(12/5)) (12/5))
    (by norm_num : (20 : ℚ) ≤ 90)
  have ht := roundTo_bounds 1 (-10) 45
    (clampQ (s.temperature + randomBetween r2 (-(3/5)) (3/5)) (-10) 45)
    (by exact_mod_cast htc.1) (by exact_mod_cast htc.2)
  push_cast at ht
  refine ⟨?_, ?_, ht.1, ht.2, ?_, ?_⟩
  · exact le_jround (by exact_mod_cast hpm.1)
  · exact jround_le (by exact_mod_cast hpm.2)
  · exact le_jround (by exact_mod_cast hhc.1)
  · exact jround_le (by exact_mod_cast hhc.2)

theorem tickOneA_bounds (r1 r2 r3 : ℚ) (now : String) (s : Sensor) :
    tickInBoundsA (tickOneA r1 r2 r3 now s) := by
  unfold tickOneA tickInBoundsA
  have hpm := clampQ_mem ((s.pm25 : ℚ) + randomBetween r1 (-(14/5)) (14/5))
    (by norm_num : (5 : ℚ) ≤ 85)
  have htc := clampQ_mem (s.temperature + randomBetween r2 (-(1/2)) (1/2))
    (by norm_num : (15 : ℚ) ≤ 30)
  have hhc := clampQ_mem ((s.humidity : ℚ) + randomBetween r3 (-(5/2)) (5/2))
    (by norm_num : (25 : ℚ) ≤ 85)
  have ht := roundTo_bounds 1 15 30
    (clampQ (s.temperature + randomBetween r2 (-(1/2)) (1/2)) 15 30)
    (by exact_mod_cast htc.1) (by exact_mod_cast htc.2)
  push_cast at ht
  refine ⟨?_, ?_, ht.1, ht.2, ?_, ?_⟩
  · exact le_jround (by exact_mod_cast hpm.1)
  · exact jround_le (by exact_mod_cast hpm.2)
  · exact le_jround (by exact_mod_cast hhc.1)
  · exact jround_le (by exact_mod_cast hhc.2)

theorem tickGoB_bounds (rnd : ℕ → ℚ) (now : String) :
    ∀ (l : List Sensor) (i : ℕ) (r : Sensor), r ∈ tickGoB rnd now i l → tickInBoundsB r := by
  intro l
  induction l with
  | nil => intro i r h; simp [tickGoB] at h
  | cons sensor rest ih =>
    intro i r h
    rcases List.mem_cons.mp h with rfl | htail
    · exact tickOneB_bounds _ _ _ _ _
    · exact ih (i + 1) r htail

theorem tickGoA_bounds (rnd : ℕ → ℚ) (now : String) :
    ∀ (l : List Sensor) (i : ℕ) (r : Sensor), r ∈ tickGoA rnd now i l → tickInBoundsA r := by
  intro l
  induction l with
  | nil => intro i r h; simp [tickGoA] at h
  | cons sensor rest ih =>
    intro i r h
    rcases List.mem_cons.mp h with rfl | htail
    · exact tickOneA_bounds _ _ _ _ _
    · exact ih (i + 1) r htail

theorem tickIterB_bounds (rnds : ℕ → ℕ → ℚ) (nows : ℕ → String) :
    ∀ (n : ℕ) (prev : List Sensor), (∀ x ∈ prev, tickInBoundsB x) →
      ∀ r ∈ tickIterB rnds nows n prev, tickInBoundsB r := by
  intro n
  induction n with
  | zero => intro prev h r hr; exact h r hr
  | succ n _ =>
    intro prev h r hr
    exact tickGoB_bounds (rnds n) (nows n) _ 0 r hr

theorem tickIterA_bounds (rnds : ℕ → ℕ → ℚ) (nows : ℕ → String) :
    ∀ (n : ℕ) (prev : List Sensor), (∀ x ∈ prev, tickInBoundsA x) →
      ∀ r ∈ tickIterA rnds nows n prev, tickInBoundsA r := by
  intro n
  induction n with
  | zero => intro prev h r hr; exact h r hr
  | succ n _ =>
    intro prev h r hr
    exact tickGoA_bounds (rnds n) (nows n) _ 0 r hr

theorem tickOneB_frame (r1 r2 r3 : ℚ) (now : String) (s : Sensor) :
    frameProj (tickOneB r1 r2 r3 now s) = frameProj s := rfl

theorem tickOneA_frame (r1 r2 r3 : ℚ) (now : String) (s : Sensor) :
    frameProj (tickOneA r1 r2 r3 now s) = frameProj s := rfl

theorem tickGoB_frame (rnd : ℕ → ℚ) (now : String) :
    ∀ (l : List Sensor) (i : ℕ), (tickGoB rnd now i l).map frameProj = l.map frameProj := by
  intro l
  induction l with
  | nil => intro i; rfl
  | cons sensor rest ih =>
    intro i
    simp only [tickGoB, List.map_cons, tickOneB_frame, ih (i + 1)]

theorem tickGoA_frame (rnd : ℕ → ℚ) (now : String) :
    ∀ (l : List Sensor) (i : ℕ), (tickGoA rnd now i l).map frameProj = l.map frameProj := by
  intro l
  induction l with
  | nil => intro i; rfl
  | cons sensor rest ih =>
    intro i
    simp only [tickGoA, List.map_cons, tickOneA_frame, ih (i + 1)]

/-! ## Claim theorems -/

/-- C1 (counterexample): with seed 20260226, the single scenario region
`{lat 0, lng 0, spread 2, count 5}` and NO boundary data, the generator
produces zero records, not five: the land test over an empty feature index
rejects every sample. -/
theorem C1_counterexample :
    (generateLandSensorsWith [c1Region] [] 20260226 c1Now).length = 0 := by
  rw [generateLandSensorsWith_nil]
  rfl

/-- C1 (amended): with seed 20260226, the single scenario region and a
boundary feature that accepts every point (the unconstrained case the code
actually supports), the run produces exactly 5 records, with ids `region-1`
through `region-5` in order, each with stored lat/lng inside the region's
spread bounds. -/
theorem C1_scenario_five_records :
    c1Out.length = 5 ∧
    c1Out.map Sensor.id = ["region-1", "region-2", "region-3", "region-4", "region-5"] ∧
    (c1Out.all fun r => pointInBounds c1Region.bounds r.lng r.lat) = true := by
  refine ⟨by decide, by decide, by decide⟩

/-- C2 (counterexample): two invocations with identical regions, seed and
boundary features but different clock readings produce different record
sequences (`updatedAt` differs), so the claim "identical in every field
including updatedAt" fails. -/
theorem C2_counterexample :
    generateLandSensorsWith [c1Region] [landEverywhere] 20260226 c1Now ≠
      generateLandSensorsWith [c1Region] [landEverywhere] 20260226
        "2026-02-26T00:00:05.000Z" := by
  intro h
  have h1 : c1Rec1 ∈ generateLandSensorsWith [c1Region] [landEverywhere] 20260226 c1Now := by
    decide
  rw [h] at h1
  have h2 := generateLandSensorsWith_updatedAt h1
  exact absurd h2 (by decide)

/-- C2 (amended): for a fixed seed the generator is deterministic in every
field except `updatedAt`: two invocations with identical regions, seed and
boundary features produce sequences that agree after erasing `updatedAt`
(same ids, same values, same order), and every record's `updatedAt` equals
the invocation's clock reading — so the sequences are fully identical
exactly when the two invocations read the same clock value. -/
theorem C2_deterministic_modulo_timestamp :
    (∀ (regions : List Region) (fs : List Feature) (seed : ℕ) (now now' : String),
      (generateLandSensorsWith regions fs seed now).map stripUpdatedAt =
        (generateLandSensorsWith regions fs seed now').map stripUpdatedAt) ∧
    (∀ (regions : List Region) (fs : List Feature) (seed : ℕ) (now : String) (r : Sensor),
      r ∈ generateLandSensorsWith regions fs seed now → r.updatedAt = now) :=
  ⟨generateLandSensorsWith_now,
   fun _ _ _ _ _ h => generateLandSensorsWith_updatedAt h⟩

/-- C2 (witness): the amended determinism theorem applied at the concrete
scenario run. -/
theorem C2_witness : c1Rec1.updatedAt = c1Now :=
  C2_deterministic_modulo_timestamp.2 [c1Region] [landEverywhere] 20260226 c1Now c1Rec1
    (by decide)

/-- C3: the function returned by `createSeededRandom(seed)` implements the
LCG `state := (state * 1664525 + 1013904223) mod 2^32` from the 32-bit
truncation of the integer seed; each call returns `state / 2^32`, a rational
in `[0, 1)`; and seeds agreeing mod `2^32` give the identical output stream. -/
theorem C3_createSeededRandom_lcg :
    (∀ seed n : ℕ,
      nthOutput seed n = (nthState seed (n + 1) : ℚ) / 4294967296 ∧
      nthState seed (n + 1) = (nthState seed n * 1664525 + 1013904223) % 4294967296 ∧
      0 ≤ nthOutput seed n ∧ nthOutput seed n < 1) ∧
    (∀ seed seed' n : ℕ, seed % 4294967296 = seed' % 4294967296 →
      nthOutput seed n = nthOutput seed' n) := by
  constructor
  · intro seed n
    refine ⟨?_, rfl, randNext_fst_nonneg _, randNext_fst_lt_one _⟩
    show (randNext (nthState seed n)).1 = _
    unfold randNext
    norm_num [nthState, UINT32]
  · intro seed seed' n h
    have hst : ∀ m, nthState seed m = nthState seed' m := by
      intro m
      induction m with
      | zero => simpa [nthState, seedInit, UINT32] using h
      | succ k ih => simp [nthState, ih]
    unfold nthOutput
    rw [hst]

/-- C3 (witness): the stream equality applied to two seeds agreeing mod 2^32. -/
theorem C3_witness : nthOutput (4294967296 + 7) 3 = nthOutput 7 3 :=
  C3_createSeededRandom_lcg.2 (4294967296 + 7) 7 3 (by norm_num)

/-- C4: every generated record's status comes from one quality roll via the
thresholds 0.63 / 0.88, and its pm25 is drawn in the band matching that
status (good 8–15, moderate 18–28, poor 32–48) — status and pm25 are never
cross-band. -/
theorem C4_status_pm25_band :
    (∀ (regions : List Region) (fs : List Feature) (seed : ℕ) (now : String) (r : Sensor),
      r ∈ generateLandSensorsWith regions fs seed now → statusBandOK r) ∧
    (∀ (k : String) (n : ℕ) (lat lng : ℚ) (s : ℕ) (now : String),
      ((createSensorPayload k n lat lng s now).1).status =
        (if (randNext s).1 < 63/100 then "good"
         else if (randNext s).1 < 88/100 then "moderate" else "poor")) := by
  constructor
  · intro regions fs seed now r h
    rcases generateLandSensorsWith_mem h with ⟨key, seq, lat, lng, s', he⟩
    rw [he]
    exact createSensorPayload_band key seq lat lng s' now
  · exact createSensorPayload_status_roll

/-- C4 (witness): the band theorem applied to the first record of the
concrete scenario run. -/
theorem C4_witness : statusBandOK c1Rec1 :=
  C4_status_pm25_band.1 [c1Region] [landEverywhere] 20260226 c1Now c1Rec1 (by decide)




/-- C5 (counterexample): the fallback loop is NOT free of the land-membership
requirement. With no boundary features, a shortfall of 5 and an attempt cap
of 8000, an unconstrained fallback would fill all 5 records; the code's
fallback rejects every sample and the run stays empty. -/
theorem C5_counterexample :
    generateLandSensorsWith [c1Region] [] 1 "t" = [] ∧ 0 < targetCount [c1Region] :=
  ⟨generateLandSensorsWith_nil [c1Region] 1 "t", by decide⟩

/-- C5 (amended): after the regions are processed the fallback loop samples
from the global fallback bounding box, still subject to the land-membership
test (with no features it adds nothing); each record it does add has
coordinates clamped into `lat ∈ [-58, 82]`, `lng ∈ [-176, 176]`; the loop
executes at most `targetCount * 1600` iterations and does not run at all
once the target count is reached. -/
theorem C5_fallback_loop :
    (∀ (now : String) (tc fuel s : ℕ) (acc : List Sensor),
      (fallbackLoopAux [] now tc fuel s acc).1 = acc) ∧
    (∀ (fi : List Feature) (now : String) (tc fuel s : ℕ) (acc : List Sensor) (r : Sensor),
      r ∈ (fallbackLoopAux fi now tc fuel s acc).1 →
        r ∈ acc ∨ (-58 ≤ r.lat ∧ r.lat ≤ 82 ∧ -176 ≤ r.lng ∧ r.lng ≤ 176)) ∧
    (∀ (fi : List Feature) (now : String) (tc s : ℕ) (acc : List Sensor),
      (fallbackLoopAux fi now tc (tc * 1600) s acc).2.2 ≤ tc * 1600) ∧
    (∀ (fi : List Feature) (now : String) (tc s : ℕ) (acc : List Sensor) (fuel : ℕ),
      ¬ acc.length < tc → fallbackLoopAux fi now tc fuel s acc = (acc, s, 0)) :=
  ⟨fun now tc fuel s acc => fallbackLoopAux_nil now tc fuel s acc,
   fallbackLoopAux_coord_bounds,
   fun fi now tc s acc => fallbackLoopAux_iters_le fi now tc (tc * 1600) s acc,
   fun fi now tc s acc fuel h => fallbackLoopAux_stop fi now tc s acc h fuel⟩

/-- C5 (witness): the fallback theorem applied to a concrete accepted record
and to a concrete already-full run. -/
theorem C5_witness :
    (c5Rec ∈ ([] : List Sensor) ∨
      (-58 ≤ c5Rec.lat ∧ c5Rec.lat ≤ 82 ∧ -176 ≤ c5Rec.lng ∧ c5Rec.lng ≤ 176)) ∧
    fallbackLoopAux [landEverywhere] "t" 0 3 7 [] = ([], 7, 0) :=
  ⟨C5_fallback_loop.2.1 [landEverywhere] "t" 1 1 1 [] c5Rec (by decide),
   C5_fallback_loop.2.2.2 [landEverywhere] "t" 0 7 [] 3 (by decide)⟩

/-- C6 (counterexample): a per-region record's STORED coordinates (rounded to
4 decimals) can fail the land test that its sampled coordinates passed: with
a tiny island feature around the first sampled point, the run produces the
record `c6-1` whose stored coordinates are off the island. -/
theorem C6_counterexample :
    (generateLandSensorsWith [c6Region] [c6Feature] 20260226 "t").map
      (fun r => (r.id, isPointOnLand [c6Feature] r.lng r.lat)) = [("c6-1", false)] := by
  decide

/-- C6 (amended): every record produced by the per-region loop was accepted
through `isPointOnLand` at its SAMPLED coordinates, and its stored lat/lng
are those sampled coordinates rounded to 4 decimals (the stored point itself
may leave the land set); fallback records are exempt. -/
theorem C6_land_check_on_sampled_coords :
    ∀ (fi : List Feature) (now : String) (regions : List Region) (p : List Sensor × ℕ)
      (r : Sensor), r ∈ (regionsPart fi now regions p).1 →
        r ∈ p.1 ∨ ∃ lat lng, isPointOnLand fi lng lat = true ∧
          r.lat = roundTo 4 lat ∧ r.lng = roundTo 4 lng := by
  intro fi now regions p r h
  rcases regionsPart_mem fi now regions p r h with hmem | hpay
  · exact Or.inl hmem
  · rcases hpay with ⟨key, seq, lat, lng, s', hl, he⟩
    refine Or.inr ⟨lat, lng, hl, ?_, ?_⟩
    · rw [he]
      exact createSensorPayload_lat key seq lat lng s' now
    · rw [he]
      exact createSensorPayload_lng key seq lat lng s' now

/-- C6 (witness): the amended theorem applied to the first record of the
concrete scenario region pass. -/
theorem C6_witness :
    c1Rec1 ∈ ([] : List Sensor) ∨ ∃ lat lng, isPointOnLand [landEverywhere] lng lat = true ∧
      c1Rec1.lat = roundTo 4 lat ∧ c1Rec1.lng = roundTo 4 lng :=
  C6_land_check_on_sampled_coords [landEverywhere] c1Now [c1Region] ([], seedInit 20260226)
    c1Rec1 (by decide)

/-- C7: iterating either version of `tickSensors` any number of times from
records inside the clamp ranges keeps pm25, temperature and humidity inside
those ranges (version B: pm25 `[5, 95]`, temperature `[-10, 45]`, humidity
`[20, 90]`; version A: pm25 `[5, 85]` ⊆ `[5, 95]`, temperature `[15, 30]`,
humidity `[25, 85]`). -/
theorem C7_tick_clamp_invariant :
    (∀ (rnds : ℕ → ℕ → ℚ) (nows : ℕ → String) (n : ℕ) (prev : List Sensor),
      (∀ x ∈ prev, tickInBoundsB x) →
        ((tickIterB rnds nows n prev).all fun r => decide (tickInBoundsB r)) = true) ∧
    (∀ (rnds : ℕ → ℕ → ℚ) (nows : ℕ → String) (n : ℕ) (prev : List Sensor),
      (∀ x ∈ prev, tickInBoundsA x) →
        ((tickIterA rnds nows n prev).all fun r => decide (tickInBoundsA r)) = true) := by
  constructor
  · intro rnds nows n prev h
    rw [List.all_eq_true]
    intro r hr
    rw [decide_eq_true_eq]
    exact tickIterB_bounds rnds nows n prev h r hr
  · intro rnds nows n prev h
    rw [List.all_eq_true]
    intro r hr
    rw [decide_eq_true_eq]
    exact tickIterA_bounds rnds nows n prev h r hr

/-- C7 (witness): 1000 iterations of version B on the spec's scenario record
`{pm25 12, temperature 20.0, humidity 40, status good}` stay inside the
clamp bounds. -/
theorem C7_witness :
    ((tickIterB (fun _ _ => 0) (fun _ => "t") 1000 [c7Record]).all
      fun r => decide (tickInBoundsB r)) = true :=
  C7_tick_clamp_invariant.1 (fun _ _ => 0) (fun _ => "t") 1000 [c7Record] (by decide)

/-- C8: generation always terminates within the attempt budgets and never
overshoots: the whole run returns at most `targetCount` records (possibly
fewer), each region's rejection loop executes at most `count * 900`
attempts, and the fallback loop at most `targetCount * 1600`. -/
theorem C8_generation_bounded :
    (∀ (regions : List Region) (fs : List Feature) (seed : ℕ) (now : String),
      (generateLandSensorsWith regions fs seed now).length ≤ targetCount regions) ∧
    (∀ (fi : List Feature) (region : Region) (now : String) (count s : ℕ)
      (acc : List Sensor),
      (regionLoopAux fi region now (region.count * 900) count s acc).2.2 ≤
        region.count * 900) ∧
    (∀ (fi : List Feature) (now : String) (tc s : ℕ) (acc : List Sensor),
      (fallbackLoopAux fi now tc (tc * 1600) s acc).2.2 ≤ tc * 1600) :=
  ⟨generateLandSensorsWith_length,
   fun fi region now count s acc =>
     regionLoopAux_iters_le fi region now (region.count * 900) count s acc,
   fun fi now tc s acc => fallbackLoopAux_iters_le fi now tc (tc * 1600) s acc⟩

/-- C9 (counterexample): when the base viewport's latitude span (0.01) is
smaller than the focus span (0.05), the focus viewport escapes the base
bounds: its `minLat` drops below `base.minLat`. -/
theorem C9_counterexample :
    (buildFocusViewport c9Sensor c9Base).minLat < c9Base.minLat := by
  decide

/-- C9 (amended): for every sensor and every base viewport whose latitude
span is at least 0.05 and longitude span at least 0.08, `buildFocusViewport`
returns a viewport of exactly 0.05 × 0.08 degrees clamped inside the base
viewport's bounds. -/
theorem C9_focus_viewport_clamped (sensor : Sensor) (base : Bounds)
    (hlat : 5/100 ≤ base.maxLat - base.minLat)
    (hlng : 8/100 ≤ base.maxLng - base.minLng) :
    (buildFocusViewport sensor base).maxLat - (buildFocusViewport sensor base).minLat = 5/100 ∧
    (buildFocusViewport sensor base).maxLng - (buildFocusViewport sensor base).minLng = 8/100 ∧
    base.minLat ≤ (buildFocusViewport sensor base).minLat ∧
    (buildFocusViewport sensor base).maxLat ≤ base.maxLat ∧
    base.minLng ≤ (buildFocusViewport sensor base).minLng ∧
    (buildFocusViewport sensor base).maxLng ≤ base.maxLng := by
  unfold buildFocusViewport clampQ
  dsimp only
  refine ⟨by ring, by ring, ?_, ?_, ?_, ?_⟩
  · exact le_min (by linarith) (le_max_left _ _)
  · have h := min_le_left (base.maxLat - 5/100)
      (max base.minLat (sensor.lat - 5/100 / 2))
    linarith
  · exact le_min (by linarith) (le_max_left _ _)
  · have h := min_le_left (base.maxLng - 8/100)
      (max base.minLng (sensor.lng - 8/100 / 2))
    linarith

/-- C9 (witness): the clamping theorem applied to a concrete sensor and a
well-sized base viewport. -/
theorem C9_witness :
    (buildFocusViewport c9Sensor c9BaseWide).maxLat -
        (buildFocusViewport c9Sensor c9BaseWide).minLat = 5/100 ∧
    (buildFocusViewport c9Sensor c9BaseWide).maxLng -
        (buildFocusViewport c9Sensor c9BaseWide).minLng = 8/100 ∧
    c9BaseWide.minLat ≤ (buildFocusViewport c9Sensor c9BaseWide).minLat ∧
    (buildFocusViewport c9Sensor c9BaseWide).maxLat ≤ c9BaseWide.maxLat ∧
    c9BaseWide.minLng ≤ (buildFocusViewport c9Sensor c9BaseWide).minLng ∧
    (buildFocusViewport c9Sensor c9BaseWide).maxLng ≤ c9BaseWide.maxLng :=
  C9_focus_viewport_clamped c9Sensor c9BaseWide (by norm_num [c9BaseWide])
    (by norm_num [c9BaseWide])

/-- C10: both versions of `tickSensors` return a list of the same length in
the same order, and each output record keeps the input record's id, name,
lat, lng (and intensity) unchanged — only pm25, temperature, humidity,
status and updatedAt are recomputed. -/
theorem C10_tick_frame :
    (∀ (rnd : ℕ → ℚ) (now : String) (prev : List Sensor),
      (tickSensorsB rnd now prev).length = prev.length ∧
      (tickSensorsB rnd now prev).map frameProj = prev.map frameProj) ∧
    (∀ (rnd : ℕ → ℚ) (now : String) (prev : List Sensor),
      (tickSensorsA rnd now prev).length = prev.length ∧
      (tickSensorsA rnd now prev).map frameProj = prev.map frameProj) := by
  constructor
  · intro rnd now prev
    have hmap : (tickSensorsB rnd now prev).map frameProj = prev.map frameProj :=
      tickGoB_frame rnd now prev 0
    have hlen := congrArg List.length hmap
    simp only [List.length_map] at hlen
    exact ⟨hlen, hmap⟩
  · intro rnd now prev
    have hmap : (tickSensorsA rnd now prev).map frameProj = prev.map frameProj :=
      tickGoA_frame rnd now prev 0
    have hlen := congrArg List.length hmap
    simp only [List.length_map] at hlen
    exact ⟨hlen, hmap⟩

end AirIQ
